import Mathlib

/-!
Verification of the ordinal-module naming, date arithmetic and module-posting
logic of the canvas_utils repository (src/canvas_utils/modules.py and
src/canvas_utils/files.py), shallowly embedded in Lean.

Python strings are embedded as Lean `String` (the inputs involved are ASCII),
Python `datetime.date` values as proleptic-Gregorian ordinals (the value of
`date.toordinal()`, day 1 = 0001-01-01, a Monday), Python `int` as `Int` or
`Nat`, and the remote Canvas API as an oracle of response functions together
with a trace of emitted effects.
-/

namespace CanvasUtils

/-! ### Models of Python string primitives -/

/-- ASCII lowering of one character, as Python `str.lower` does on ASCII. -/
def pyLowerChar (c : Char) : Char :=
  if 'A' ≤ c ∧ c ≤ 'Z' then Char.ofNat (c.toNat + 32) else c

/-- ASCII raising of one character, as Python `str.upper` does on ASCII. -/
def pyUpperChar (c : Char) : Char :=
  if 'a' ≤ c ∧ c ≤ 'z' then Char.ofNat (c.toNat - 32) else c

/-- Python `str.lower` on ASCII strings. -/
def pyLower (s : String) : String := ⟨s.data.map pyLowerChar⟩

/-- Python `str.capitalize`: first character upper-cased, the rest lowered. -/
def pyCapitalize (s : String) : String :=
  match s.data with
  | [] => ""
  | c :: cs => ⟨pyUpperChar c :: cs.map pyLowerChar⟩

/-- Helper for `pySplit`: accumulates the current word (reversed). -/
def pySplitAux : List Char → List Char → List String
  | [], acc => if acc = [] then [] else [⟨acc.reverse⟩]
  | c :: cs, acc =>
    if c = ' ' ∨ c = '\t' ∨ c = '\n' then
      if acc = [] then pySplitAux cs [] else ⟨acc.reverse⟩ :: pySplitAux cs []
    else pySplitAux cs (c :: acc)

/-- Python `str.split()` with no argument: splits on whitespace runs and
drops empty words. -/
def pySplit (s : String) : List String := pySplitAux s.data []

/-- Python `" ".join(ws)`. -/
def joinWords (ws : List String) : String := String.intercalate " " ws

/-- Python `str(b)` for a boolean. -/
def pyStrBool (b : Bool) : String := if b then "True" else "False"

/-- Python `str(x)` for an optional string (None prints as "None"). -/
def pyStrOptStr : Option String → String
  | none => "None"
  | some s => s

/-! ### Model of the external ordinal libraries

The repository calls two pip libraries: `number_parser.parse_ordinal` and
`num2words`.  Their code is not part of this repository, so they are
modelled here from the behaviour the spec relies on: English ordinal
phrases for 1..99 (`first`, ..., `nineteenth`, `twentieth`, `twenty-first`,
...), parsed only when the whole string is exactly such a phrase. -/

/-- Value of a units-position English ordinal word (1..9). -/
def unitOrdinalVal (w : String) : Option Nat :=
  if w = "first" then some 1
  else if w = "second" then some 2
  else if w = "third" then some 3
  else if w = "fourth" then some 4
  else if w = "fifth" then some 5
  else if w = "sixth" then some 6
  else if w = "seventh" then some 7
  else if w = "eighth" then some 8
  else if w = "ninth" then some 9
  else none

/-- Value of a 10..19 English ordinal word. -/
def teenOrdinalVal (w : String) : Option Nat :=
  if w = "tenth" then some 10
  else if w = "eleventh" then some 11
  else if w = "twelfth" then some 12
  else if w = "thirteenth" then some 13
  else if w = "fourteenth" then some 14
  else if w = "fifteenth" then some 15
  else if w = "sixteenth" then some 16
  else if w = "seventeenth" then some 17
  else if w = "eighteenth" then some 18
  else if w = "nineteenth" then some 19
  else none

/-- Value of a round-tens English ordinal word (20, 30, ..., 90). -/
def tensOrdinalVal (w : String) : Option Nat :=
  if w = "twentieth" then some 20
  else if w = "thirtieth" then some 30
  else if w = "fortieth" then some 40
  else if w = "fiftieth" then some 50
  else if w = "sixtieth" then some 60
  else if w = "seventieth" then some 70
  else if w = "eightieth" then some 80
  else if w = "ninetieth" then some 90
  else none

/-- Value of a round-tens English cardinal word (20, 30, ..., 90). -/
def tensCardinalVal (w : String) : Option Nat :=
  if w = "twenty" then some 20
  else if w = "thirty" then some 30
  else if w = "forty" then some 40
  else if w = "fifty" then some 50
  else if w = "sixty" then some 60
  else if w = "seventy" then some 70
  else if w = "eighty" then some 80
  else if w = "ninety" then some 90
  else none

/-- Hyphens become spaces before tokenizing (so that "twenty-first" is read
as the two tokens "twenty" "first"). -/
def deHyphen (s : String) : String :=
  ⟨s.data.map (fun c => if c = '-' then ' ' else c)⟩

/-- Modelled from the spec: the external library function
`number_parser.parse_ordinal` (not part of this repository).  Parses a whole
string as an English ordinal phrase for 1..99, case-insensitively, and
returns `none` when the string, taken as a whole, is not such a phrase. -/
def parse_ordinal (s : String) : Option Nat :=
  match pySplit (pyLower (deHyphen s)) with
  | [w] =>
    match unitOrdinalVal w with
    | some v => some v
    | none =>
      match teenOrdinalVal w with
      | some v => some v
      | none => tensOrdinalVal w
  | [t, u] =>
    match tensCardinalVal t, unitOrdinalVal u with
    | some tv, some uv => some (tv + uv)
    | _, _ => none
  | _ => none

/-- English ordinal word for 1..19 (used by the `num2words` model). -/
def smallOrdinalWord (n : Nat) : String :=
  if n = 1 then "first"
  else if n = 2 then "second"
  else if n = 3 then "third"
  else if n = 4 then "fourth"
  else if n = 5 then "fifth"
  else if n = 6 then "sixth"
  else if n = 7 then "seventh"
  else if n = 8 then "eighth"
  else if n = 9 then "ninth"
  else if n = 10 then "tenth"
  else if n = 11 then "eleventh"
  else if n = 12 then "twelfth"
  else if n = 13 then "thirteenth"
  else if n = 14 then "fourteenth"
  else if n = 15 then "fifteenth"
  else if n = 16 then "sixteenth"
  else if n = 17 then "seventeenth"
  else if n = 18 then "eighteenth"
  else if n = 19 then "nineteenth"
  else ""

/-- English round-tens ordinal word, argument is the tens digit. -/
def tensOrdinalWord (t : Nat) : String :=
  if t = 2 then "twentieth"
  else if t = 3 then "thirtieth"
  else if t = 4 then "fortieth"
  else if t = 5 then "fiftieth"
  else if t = 6 then "sixtieth"
  else if t = 7 then "seventieth"
  else if t = 8 then "eightieth"
  else if t = 9 then "ninetieth"
  else ""

/-- English round-tens cardinal word, argument is the tens digit. -/
def tensCardinalWord (t : Nat) : String :=
  if t = 2 then "twenty"
  else if t = 3 then "thirty"
  else if t = 4 then "forty"
  else if t = 5 then "fifty"
  else if t = 6 then "sixty"
  else if t = 7 then "seventy"
  else if t = 8 then "eighty"
  else if t = 9 then "ninety"
  else ""

/-- Modelled from the spec: the external library call
`num2words(number, "ordinal")` (not part of this repository), for 1..99:
1 -> "first", 20 -> "twentieth", 21 -> "twenty-first", ... -/
def num2wordsOrdinal (n : Nat) : String :=
  if n < 20 then smallOrdinalWord n
  else if n % 10 = 0 then tensOrdinalWord (n / 10)
  else tensCardinalWord (n / 10) ++ "-" ++ smallOrdinalWord (n % 10)

/-! ### Ordinal module names (modules.py) -/

/-- Structural helper for `drop_last_iter`: the fuel bounds the number of
loop iterations (each iteration shortens the list by one, so the initial
length is enough fuel). -/
def dropLastIterAux : Nat → List String → List (List String)
  | 0, _ => []
  | _, [] => []
  | Nat.succ n, x :: xs => (x :: xs) :: dropLastIterAux n (x :: xs).dropLast

/-- `drop_last_iter` from modules.py: yields `lst`, then `lst` without its
last item, and so on while nonempty. -/
def drop_last_iter (l : List String) : List (List String) :=
  dropLastIterAux l.length l

/-- `get_ordinal_from_name` from modules.py: splits the name into words and
returns the first successful `parse_ordinal` over ever shorter initial
segments, or `none`. -/
def get_ordinal_from_name (name : String) : Option Nat :=
  (drop_last_iter (pySplit name)).findSome? (fun sublist => parse_ordinal (joinWords sublist))

/-- `ordinal_module_name` from modules.py (the default suffix is "class"). -/
def ordinal_module_name (number : Nat) (suffix : String) : String :=
  pyCapitalize (num2wordsOrdinal number) ++ " " ++ suffix

/-- A remote module as returned by `canvas.list_modules`: a dict with at
least the fields used by the code, `id` and `name`. -/
structure Module where
  id : Nat
  name : String
deriving DecidableEq

/-- `get_last_ordinal_module_number` from modules.py, with the remote list
of modules (the result of `canvas.list_modules(classid)`) passed in as data:
the maximum ordinal parsed from any module name, or 0 when none parses. -/
def get_last_ordinal_module_number (mlist : List Module) : Nat :=
  match mlist.filterMap (fun m => get_ordinal_from_name m.name) with
  | [] => 0
  | x :: xs => xs.foldl Nat.max x

/-! Spec-side rendering of the claimed scanning order, for comparison with
`get_ordinal_from_name`: the word-prefixes of the name from the whole name
down to a single word. -/

/-- Following the spec text: the initial segments of `ws`, longest first,
down to the one-word segment. -/
def specScanCandidates (ws : List String) : List (List String) :=
  (List.range ws.length).map (fun i => ws.take (ws.length - i))

/-- Following the spec text for `parse_ordinal_prefix`: try ever shorter
word-prefixes, longest first, and return the first that parses. -/
def spec_ordinal_scan (name : String) : Option Nat :=
  (specScanCandidates (pySplit name)).findSome? (fun p => parse_ordinal (joinWords p))

/-- One more than the last ordinal module number: the number whose ordinal
name `create_next_ordinal_module` creates. -/
def next_ordinal_number (mlist : List Module) : Nat :=
  get_last_ordinal_module_number mlist + 1

/-! ### A small model of Python values, for the dict-membership test in
`create_next_ordinal_module` -/

/-- A Python value as far as the embedded code needs: a string, an int, or
a builtin function object (such as the builtin `id`). -/
inductive PyVal where
  | str (s : String)
  | int (n : Int)
  | builtin (name : String)
deriving DecidableEq

/-- A Python dict, in insertion order. -/
abbrev PyDict := List (PyVal × PyVal)

/-- `k in d` for a Python dict: key membership by equality. -/
def PyDict.containsKey (d : PyDict) (k : PyVal) : Bool :=
  d.any (fun kv => kv.1 = k)

/-- `d[k]` for a Python dict, `none` when the key is absent (KeyError). -/
def PyDict.get (d : PyDict) (k : PyVal) : Option PyVal :=
  (d.find? (fun kv => kv.1 = k)).map (fun kv => kv.2)

/-- Is this value a Python string? -/
def PyVal.isStr : PyVal → Bool
  | .str _ => true
  | _ => false

/-- The Python builtin function `id` (a function object, not a string). -/
def pythonBuiltinId : PyVal := PyVal.builtin "id"

/-- `create_next_ordinal_module` from modules.py, with the remote list of
modules and the `canvas.create_module` response dict passed in as data.
Returns the pair of the name it sends to `canvas.create_module` and its
return value.  The code tests `if id in resp` — `id` here is the Python
builtin function, not the string "id". -/
def create_next_ordinal_module (mlist : List Module) (resp : PyDict)
    (suffix : String) : String × Option PyVal :=
  let lastmod := get_last_ordinal_module_number mlist
  let name := ordinal_module_name (lastmod + 1) suffix
  (name,
   if PyDict.containsKey resp pythonBuiltinId then PyDict.get resp (PyVal.str "id")
   else none)

/-! ### Lemmas: the iteration order of `drop_last_iter` -/

theorem specScanCandidates_cons (x : String) (xs : List String) :
    specScanCandidates (x :: xs) = (x :: xs) :: specScanCandidates (x :: xs).dropLast := by
  unfold specScanCandidates
  rw [List.length_cons, List.range_succ_eq_map, List.map_cons, List.map_map]
  have hd : (x :: xs).take (xs.length + 1 - 0) = x :: xs := by
    rw [Nat.sub_zero]
    exact List.take_of_length_le (by simp)
  rw [hd]
  have hlen : (x :: xs).dropLast.length = xs.length := by simp
  rw [hlen]
  congr 1
  apply List.map_congr_left
  intro i hi
  have hi' : i < xs.length := List.mem_range.mp hi
  have hdrop : (x :: xs).dropLast = (x :: xs).take xs.length := by
    rw [List.dropLast_eq_take]
    simp
  rw [hdrop, Function.comp_apply, List.take_take]
  congr 1
  omega

theorem dropLastIterAux_eq :
    ∀ (n : Nat) (l : List String), l.length ≤ n → dropLastIterAux n l = specScanCandidates l := by
  intro n
  induction n with
  | zero =>
    intro l hl
    have : l = [] := List.eq_nil_of_length_eq_zero (Nat.le_zero.mp hl)
    subst this
    rfl
  | succ n ih =>
    intro l hl
    match l with
    | [] => rfl
    | x :: xs =>
      rw [dropLastIterAux, specScanCandidates_cons]
      congr 1
      exact ih _ (by simp at hl ⊢; omega)

theorem drop_last_iter_eq (l : List String) : drop_last_iter l = specScanCandidates l :=
  dropLastIterAux_eq l.length l (Nat.le_refl _)

/-! ### Claim theorems C1 - C3 -/

/-- C1: for every name string, `get_ordinal_from_name` tries progressively
shorter word-prefixes of the name, from the whole name down to a single
word, and returns the first prefix that parses as an English ordinal, or no
match if none parse; in particular it returns 2 for "Second class", 1 for
"First class review", and no match for "Unrelated Module". -/
theorem get_ordinal_from_name_scans_initial_segments :
    (∀ name : String, get_ordinal_from_name name = spec_ordinal_scan name) ∧
    get_ordinal_from_name "Second class" = some 2 ∧
    get_ordinal_from_name "First class review" = some 1 ∧
    get_ordinal_from_name "Unrelated Module" = none := by
  refine ⟨?_, by decide, by decide, by decide⟩
  intro name
  unfold get_ordinal_from_name spec_ordinal_scan
  rw [drop_last_iter_eq]

/-- C2: for every n in 1..50, parsing the name produced by
`ordinal_module_name n "class"` with `get_ordinal_from_name` yields n. -/
theorem ordinal_module_name_roundtrip (n : Nat) (h1 : 1 ≤ n) (h2 : n ≤ 50) :
    get_ordinal_from_name (ordinal_module_name n "class") = some n := by
  have key : ∀ m : Fin 51, 1 ≤ m.val →
      get_ordinal_from_name (ordinal_module_name m.val "class") = some m.val := by decide
  exact key ⟨n, by omega⟩ h1

/-- Witness for C2 at n = 21 ("Twenty-first class"). -/
theorem ordinal_module_name_roundtrip_witness :
    1 ≤ 21 ∧ 21 ≤ 50 ∧
      get_ordinal_from_name (ordinal_module_name 21 "class") = some 21 :=
  ⟨by decide, by decide, ordinal_module_name_roundtrip 21 (by decide) (by decide)⟩

/-- C3: the number used by `create_next_ordinal_module` (that is,
`get_last_ordinal_module_number` plus one) is one more than the maximum
ordinal parsed from any remote module name, or 1 if no name parses; names
that do not parse are ignored, so for ["First class", "Second class",
"Syllabus"] the next number is 3. -/
theorem next_ordinal_number_spec :
    (∀ (mlist : List Module) (resp : PyDict) (suffix : String),
       (create_next_ordinal_module mlist resp suffix).1 =
         ordinal_module_name (next_ordinal_number mlist) suffix) ∧
    (∀ mlist : List Module,
       (mlist.filterMap (fun m => get_ordinal_from_name m.name) = [] →
          next_ordinal_number mlist = 1) ∧
       (∀ mx, (mlist.filterMap (fun m => get_ordinal_from_name m.name)).max? = some mx →
          next_ordinal_number mlist = mx + 1)) ∧
    next_ordinal_number [⟨10, "First class"⟩, ⟨11, "Second class"⟩, ⟨12, "Syllabus"⟩] = 3 := by
  refine ⟨fun mlist resp suffix => rfl, ?_, by decide⟩
  intro mlist
  constructor
  · intro hnil
    unfold next_ordinal_number get_last_ordinal_module_number
    rw [hnil]
  · intro mx hmx
    unfold next_ordinal_number get_last_ordinal_module_number
    cases hp : mlist.filterMap (fun m => get_ordinal_from_name m.name) with
    | nil => rw [hp] at hmx; simp [List.max?] at hmx
    | cons x xs =>
      rw [hp] at hmx
      simp only [List.max?] at hmx
      have hfold : xs.foldl Nat.max x = mx := by
        simpa using hmx
      show xs.foldl Nat.max x + 1 = mx + 1
      omega

/-- Witness for C3: an all-nonparsing list gives 1, and the concrete
three-module list gives 3 with maximum parsed ordinal 2. -/
theorem next_ordinal_number_spec_witness :
    next_ordinal_number [⟨5, "Syllabus"⟩] = 1 ∧
    next_ordinal_number [⟨10, "First class"⟩, ⟨11, "Second class"⟩, ⟨12, "Syllabus"⟩] = 3 :=
  ⟨(next_ordinal_number_spec.2.1 [⟨5, "Syllabus"⟩]).1 (by decide),
   (next_ordinal_number_spec.2.1
      [⟨10, "First class"⟩, ⟨11, "Second class"⟩, ⟨12, "Syllabus"⟩]).2 2 (by decide)⟩

/-! ### Model of Python dates

A `datetime.date` is embedded as its proleptic-Gregorian ordinal, the value
of `date.toordinal()` (day 1 = 0001-01-01, which is a Monday, so
`date.weekday() == (ordinal + 6) % 7`).  `toordinal` and `fromordinal`
below follow the standard conversion used by CPython's datetime module. -/

/-- Gregorian leap-year test. -/
def isLeapYear (y : Nat) : Bool :=
  y % 4 = 0 ∧ (y % 100 ≠ 0 ∨ y % 400 = 0)

/-- Number of days in a month (month is 1..12). -/
def daysInMonth (y m : Nat) : Nat :=
  if m = 2 then (if isLeapYear y then 29 else 28)
  else if m = 4 ∨ m = 6 ∨ m = 9 ∨ m = 11 then 30
  else 31

/-- Days in all years strictly before year `y` (year is 1-based). -/
def daysBeforeYear (y : Nat) : Nat :=
  (y - 1) * 365 + (y - 1) / 4 - (y - 1) / 100 + (y - 1) / 400

/-- Days in all months of year `y` strictly before month `m`. -/
def daysBeforeMonth (y m : Nat) : Nat :=
  ((List.range (m - 1)).map (fun i => daysInMonth y (i + 1))).sum

/-- `datetime.date(y, m, d).toordinal()`. -/
def toordinal (y m d : Nat) : Nat :=
  daysBeforeYear y + daysBeforeMonth y m + d

/-- Structural helper for `monthOfYearDay`; the fuel bounds the number of
months still to scan. -/
def monthOfYearDayAux (y : Nat) : Nat → Nat → Nat → Nat × Nat
  | 0, m, n => (m, n + 1)
  | fuel + 1, m, n =>
    if m < 12 then
      if n < daysInMonth y m then (m, n + 1)
      else monthOfYearDayAux y fuel (m + 1) (n - daysInMonth y m)
    else (m, n + 1)

/-- Finds the month containing 0-based day offset `n` of year `y`; returns
the month and the 1-based day of month. -/
def monthOfYearDay (y m n : Nat) : Nat × Nat :=
  monthOfYearDayAux y 12 m n

/-- `datetime.date.fromordinal`: ordinal to (year, month, day). -/
def fromordinal (o : Nat) : Nat × Nat × Nat :=
  let n0 := o - 1
  let n400 := n0 / 146097
  let r400 := n0 % 146097
  let n100 := r400 / 36524
  let r100 := r400 % 36524
  let n4 := r100 / 1461
  let r4 := r100 % 1461
  let n1 := r4 / 365
  let r1 := r4 % 365
  let year := n400 * 400 + n100 * 100 + n4 * 4 + n1 + 1
  if n1 = 4 ∨ n100 = 4 then (year - 1, 12, 31)
  else
    let md := monthOfYearDay year 1 r1
    (year, md.1, md.2)

/-- `calendar.month_name[m]` (index 0 is the empty string). -/
def monthName (m : Nat) : String :=
  if m = 1 then "January"
  else if m = 2 then "February"
  else if m = 3 then "March"
  else if m = 4 then "April"
  else if m = 5 then "May"
  else if m = 6 then "June"
  else if m = 7 then "July"
  else if m = 8 then "August"
  else if m = 9 then "September"
  else if m = 10 then "October"
  else if m = 11 then "November"
  else if m = 12 then "December"
  else ""

/-- `calendar.month_name` as a list: empty string, then the twelve month
names, as in `list(month_name)`. -/
def monthNames : List String :=
  ["", "January", "February", "March", "April", "May", "June", "July",
   "August", "September", "October", "November", "December"]

/-- Zero-pads a decimal string on the left to the given width. -/
def padZeros (s : String) (width : Nat) : String :=
  ⟨List.replicate (width - s.length) '0'⟩ ++ s

/-- `date.isoformat()` for a date given by its ordinal: "YYYY-MM-DD". -/
def isoformatOrd (o : Nat) : String :=
  let ymd := fromordinal o
  padZeros (toString ymd.1) 4 ++ "-" ++ padZeros (toString ymd.2.1) 2 ++ "-" ++
    padZeros (toString ymd.2.2) 2

/-- `date.weekday()` for a date given by its ordinal (Monday = 0), for
dates embedded as `Int` ordinals. -/
def pyWeekday (o : Int) : Int := (o + 6) % 7

/-- `date.weekday()` on a `Nat` ordinal. -/
def pyWeekdayNat (o : Nat) : Nat := (o + 6) % 7

/-! ### module_name (weekly module names, modules.py) -/

/-- `module_name` from modules.py, for a numeric month: builds the date,
steps back to the Monday of its week, and renders "Week of Month day" from
that Monday. -/
def module_name (year month day : Nat) : String :=
  let date := toordinal year month day
  let monday := date - pyWeekdayNat date
  let ymd := fromordinal monday
  "Week of " ++ monthName ymd.2.1 ++ " " ++ toString ymd.2.2

/-- The Monday of the week of the date with ordinal `o` (Python
`date - timedelta(days=date.weekday())`). -/
def mondayOf (o : Nat) : Nat := o - pyWeekdayNat o

/-- Following the spec text: the string "Week of {MonthName} {day}" for the
date with ordinal `o`. -/
def weekOfRender (o : Nat) : String :=
  "Week of " ++ monthName (fromordinal o).2.1 ++ " " ++ toString (fromordinal o).2.2

/-! ### SemesterDates (modules.py) -/

/-- The `SemesterDates` state: a semester start date (as an ordinal) and a
default due time string. -/
structure SemesterDates where
  start_date : Int
  default_due_time : String
deriving DecidableEq

/-- `SemesterDates.__init__`: the start date is moved back to the Monday of
its week, and the default due time defaults to "23:59:00". -/
def SemesterDates.init (start_date : Int) (default_due_time : Option String) :
    SemesterDates :=
  ⟨start_date - pyWeekday start_date,
   match default_due_time with
   | none => "23:59:00"
   | some t => t⟩

/-- `SemesterDates.week_start`: start of the given week (weeks are numbered
from 1). -/
def SemesterDates.week_start (sd : SemesterDates) (week : Int) : Int :=
  sd.start_date + 7 * (week - 1)

/-- `SemesterDates.week_and_day`: date of the given week and day (weeks
from 1, days from 0 = Monday). -/
def SemesterDates.week_and_day (sd : SemesterDates) (week day : Int) : Int :=
  sd.start_date + (7 * (week - 1) + day)

/-- `SemesterDates.due_day`: ISO date of the given week and day joined with
the due time by "T"; the time defaults to the default due time. -/
def SemesterDates.due_day (sd : SemesterDates) (week day : Int)
    (time : Option String) : String :=
  let date := sd.start_date + (7 * (week - 1) + day)
  let t :=
    match time with
    | none => sd.default_due_time
    | some t => t
  isoformatOrd date.toNat ++ "T" ++ t

/-! ### Claim theorems C4 - C6 -/

/-- C4: for every input date and default time, the `SemesterDates`
constructor yields a start date whose weekday is Monday, and `week_start 1`
equals that normalized start date. -/
theorem semesterDates_start_is_monday :
    ∀ (d : Int) (t : Option String),
      pyWeekday (SemesterDates.init d t).start_date = 0 ∧
      (SemesterDates.init d t).week_start 1 = (SemesterDates.init d t).start_date := by
  intro d t
  constructor
  · show (d - (d + 6) % 7 + 6) % 7 = 0
    omega
  · show d - pyWeekday d + 7 * (1 - 1) = d - pyWeekday d
    omega

/-- C5: `due_day` is linear in week and day: one more week shifts the
denoted date by exactly 7 days and one more day by exactly 1 day, while the
time component is unchanged. -/
theorem due_day_linear :
    ∀ (sd : SemesterDates) (week day : Int) (t : String),
      sd.week_and_day (week + 1) day = sd.week_and_day week day + 7 ∧
      sd.week_and_day week (day + 1) = sd.week_and_day week day + 1 ∧
      sd.due_day (week + 1) day (some t) =
        isoformatOrd (sd.week_and_day week day + 7).toNat ++ "T" ++ t ∧
      sd.due_day week (day + 1) (some t) =
        isoformatOrd (sd.week_and_day week day + 1).toNat ++ "T" ++ t ∧
      sd.due_day week day (some t) =
        isoformatOrd (sd.week_and_day week day).toNat ++ "T" ++ t := by
  intro sd week day t
  have h7 : sd.start_date + (7 * (week + 1 - 1) + day) = sd.week_and_day week day + 7 := by
    unfold SemesterDates.week_and_day; ring
  have h1 : sd.start_date + (7 * (week - 1) + (day + 1)) = sd.week_and_day week day + 1 := by
    unfold SemesterDates.week_and_day; ring
  refine ⟨by unfold SemesterDates.week_and_day; ring, by unfold SemesterDates.week_and_day; ring, ?_, ?_, ?_⟩
  · unfold SemesterDates.due_day
    rw [h7]
  · unfold SemesterDates.due_day
    rw [h1]
  · unfold SemesterDates.due_day SemesterDates.week_and_day
    rfl

/-- C6: `module_name` renders the "Week of Month day" string of the Monday
of the given date's week, so any two dates with the same week-Monday (in
particular any Monday..Sunday of one week) give the same module name. -/
theorem module_name_same_week :
    (∀ year month day : Nat,
       module_name year month day = weekOfRender (mondayOf (toordinal year month day))) ∧
    (∀ y1 m1 d1 y2 m2 d2 : Nat,
       mondayOf (toordinal y1 m1 d1) = mondayOf (toordinal y2 m2 d2) →
       module_name y1 m1 d1 = module_name y2 m2 d2) := by
  have hrender : ∀ year month day : Nat,
      module_name year month day = weekOfRender (mondayOf (toordinal year month day)) := by
    intro year month day
    rfl
  refine ⟨hrender, ?_⟩
  intro y1 m1 d1 y2 m2 d2 h
  rw [hrender, hrender, h]

/-- Witness for C6: 2019-01-10 (a Thursday) and 2019-01-07 (the Monday of
that week) yield the same name, "Week of January 7". -/
theorem module_name_same_week_witness :
    mondayOf (toordinal 2019 1 10) = mondayOf (toordinal 2019 1 7) ∧
    module_name 2019 1 10 = module_name 2019 1 7 ∧
    module_name 2019 1 7 = "Week of January 7" :=
  ⟨by decide, module_name_same_week.2 2019 1 10 2019 1 7 (by decide), by decide⟩

/-! ### get_module_id (modules.py) -/

/-- `get_module_id` from modules.py: `canvas.list_modules(classid,
search=name)` is the injected remote search capability; the function
returns the id of the first entry of its result, or `none` when the result
is empty. -/
def get_module_id (list_modules : Nat → String → List Module)
    (classid : Nat) (name : String) : Option Nat :=
  match list_modules classid name with
  | [] => none
  | m :: _ => some m.id

/-- C7: `get_module_id` returns the identifier of the first element of the
remote search result, returns `none` exactly when that result is empty, and
never consults entries after the first. -/
theorem get_module_id_first_match :
    (∀ (list_modules : Nat → String → List Module) (classid : Nat) (name : String),
       (get_module_id list_modules classid name = none ↔ list_modules classid name = [])) ∧
    (∀ (list_modules : Nat → String → List Module) (classid : Nat) (name : String)
       (m : Module) (rest : List Module),
       list_modules classid name = m :: rest →
       get_module_id list_modules classid name = some m.id) := by
  constructor
  · intro list_modules classid name
    unfold get_module_id
    cases list_modules classid name with
    | nil => simp
    | cons m rest => simp
  · intro list_modules classid name m rest h
    unfold get_module_id
    rw [h]

/-- Witness for C7: a remote with two modules of the same name returns the
first id (7) and, with an empty remote, returns nothing. -/
theorem get_module_id_first_match_witness :
    get_module_id (fun _ _ => [⟨7, "Week of June 1"⟩, ⟨9, "Week of June 1"⟩]) 42 "Week of June 1" =
      some 7 ∧
    get_module_id (fun _ _ => []) 42 "Week of June 1" = none :=
  ⟨get_module_id_first_match.2 (fun _ _ => [⟨7, "Week of June 1"⟩, ⟨9, "Week of June 1"⟩])
      42 "Week of June 1" ⟨7, "Week of June 1"⟩ [⟨9, "Week of June 1"⟩] rfl,
   (get_module_id_first_match.1 (fun _ _ => []) 42 "Week of June 1").mpr rfl⟩

/-! ### Claim theorem C10 -/

/-- C10: whenever the `canvas.create_module` response is a mapping whose
keys are all strings (as every API response mapping is),
`create_next_ordinal_module` returns `None` rather than the new module's
id, because its membership test `if id in resp` checks for the Python
builtin function `id`, not the string key "id". -/
theorem create_next_ordinal_module_returns_none
    (mlist : List Module) (resp : PyDict) (suffix : String)
    (hkeys : resp.all (fun kv => kv.1.isStr) = true) :
    (create_next_ordinal_module mlist resp suffix).2 = none := by
  have hmem : PyDict.containsKey resp pythonBuiltinId = false := by
    unfold PyDict.containsKey
    rw [List.any_eq_false]
    intro kv hkv
    have hstr := (List.all_eq_true.mp hkeys) kv hkv
    cases h1 : kv.1 with
    | str s => simp [pythonBuiltinId, h1]
    | int n => rw [h1] at hstr; simp [PyVal.isStr] at hstr
    | builtin nm =>
      rw [h1] at hstr
      simp [PyVal.isStr] at hstr
  unfold create_next_ordinal_module
  rw [hmem]
  simp

/-- Witness for C10: a response that does contain the string key "id" (with
value 123) still yields `none`, even though looking up "id" would find 123. -/
theorem create_next_ordinal_module_returns_none_witness :
    ([(PyVal.str "id", PyVal.int 123)] : PyDict).all (fun kv => kv.1.isStr) = true ∧
    PyDict.get [(PyVal.str "id", PyVal.int 123)] (PyVal.str "id") = some (PyVal.int 123) ∧
    (create_next_ordinal_module [] [(PyVal.str "id", PyVal.int 123)] "class").2 = none :=
  ⟨by decide, by decide,
   create_next_ordinal_module_returns_none [] [(PyVal.str "id", PyVal.int 123)] "class"
     (by decide)⟩

/-! ### Effect-trace model of module posting (modules.py, files.py)

Every call into the `canvas` client and every `print` is recorded as one
effect, in execution order.  The responses of remote reads are supplied by
a `Remote` oracle, so the embedded functions stay pure. -/

/-- A remote file entry as returned by `canvas.list_files`. -/
structure CFile where
  id : Nat
  name : String
deriving DecidableEq

/-- An assignment group as returned by `canvas.get_assignment_groups`. -/
structure AssignmentGroup where
  id : Nat
  name : String
deriving DecidableEq

/-- The responses of the remote Canvas API, abstracted as functions of the
request data. -/
structure Remote where
  /-- `canvas.list_files(course, fname)`. -/
  list_files : Nat → String → List CFile
  /-- The file id inside the response of `canvas.upload_file_to_course`. -/
  upload_id : Nat → String → Nat
  /-- Ids in the response of `canvas.get_assignments(course, name)`. -/
  get_assignments : Nat → String → List Nat
  /-- `canvas.get_assignment_groups(course)`. -/
  assignment_groups : Nat → List AssignmentGroup
  /-- Id of the assignment created by `canvas.create_assignment`. -/
  create_assignment_id : Nat → String → Nat
  /-- `canvas.create_module` response: the value of its "id" key, when
  present. -/
  create_module_resp : Nat → String → Option Nat
  /-- The module item returned by `canvas.create_module_item` (files.py
  returns it). -/
  created_item_id : Nat → String → Nat

/-- One observable step: a `canvas` API call, a printed line, or a raised
exception. -/
inductive Effect where
  | createModule (classid : Nat) (name : String) (position : Option Nat)
  | createModuleItem (classid : Nat) (moduleid : Option Nat) (title : String)
      (position : Option Nat) (kind : String) (indent : Nat) (content : Option Nat)
  | createUrlItem (classid : Nat) (moduleid : Option Nat) (title : String)
      (position : Option Nat) (kind : String) (indent : Nat) (url : String) (newTab : Bool)
  | uploadFileToCourse (classid : Nat) (localFile : String) (remotePath : String)
      (remoteName : Option String)
  | listFiles (classid : Nat) (fname : String)
  | getAssignments (classid : Nat) (name : String)
  | getAssignmentGroups (classid : Nat)
  | createAssignment (classid : Nat) (name description : String) (points : Nat)
      (dueAt : String) (groupid : Nat) (extToolUrl : Option String)
  | postAnnouncement (classid : Nat) (title body : String)
  | printMsg (msg : String)
  | raiseError (msg : String)
deriving DecidableEq

/-- Is this effect a printed line (as opposed to a remote call or an
exception)? -/
def Effect.isPrintMsg : Effect → Bool
  | .printMsg _ => true
  | _ => false

/-! #### Module items as a tagged variant -/

/-- The module-item variants of modules.py that the claims concern, with
the per-kind fields of the corresponding classes.  `webworkSet` carries the
assignment name already resolved (the constructor default is the set name
with underscores replaced by spaces). -/
inductive ModuleItem where
  | header (title : String) (indent : Nat)
  | file (title fname : String) (indent : Nat)
  | localFile (title local_file remote_path : String) (remote_name : Option String)
      (indent : Nat)
  | assignment (title name : String) (indent : Nat)
  | url (title url : String) (indent : Nat) (new_tab : Bool)
  | webworkSet (title wwclass wwset : String) (points : Nat) (deadline : String)
      (group : Option String) (name : String) (announcement : Option String) (indent : Nat)
deriving DecidableEq

/-- Python `wwset.replace("_", " ")`. -/
def underscoresToSpaces (s : String) : String :=
  ⟨s.data.map (fun c => if c = '_' then ' ' else c)⟩

/-- `ItemWebworkSet.__init__`: when no name is given, the assignment name
defaults to the set name with underscores replaced by spaces. -/
def mkItemWebworkSet (title wwclass wwset : String) (points : Nat) (deadline : String)
    (group : Option String) (name : Option String) (announcement : Option String)
    (indent : Nat) : ModuleItem :=
  ModuleItem.webworkSet title wwclass wwset points deadline group
    (match name with
     | none => underscoresToSpaces wwset
     | some n => n)
    announcement indent

/-- The indent field of an item. -/
def ModuleItem.indentOf : ModuleItem → Nat
  | .header _ i => i
  | .file _ _ i => i
  | .localFile _ _ _ _ i => i
  | .assignment _ _ i => i
  | .url _ _ i _ => i
  | .webworkSet _ _ _ _ _ _ _ _ i => i

/-- `__lines__` of each item class. -/
def ModuleItem.lines : ModuleItem → List String
  | .header title _ => [title]
  | .file title fname _ => ["File:", title, fname]
  | .localFile title local_file remote_path remote_name _ =>
    ["File upload:", title, local_file, remote_path, pyStrOptStr remote_name]
  | .assignment title name _ => ["Assignment:", title, name]
  | .url title u _ new_tab =>
    ["URL:", title, "URL: " ++ u, "New tab: " ++ pyStrBool new_tab]
  | .webworkSet title _ _ points deadline group name announcement _ =>
    ["WeBWorK assignment:", title, name, "Points: " ++ toString points,
     "Due: " ++ deadline, "Group: " ++ pyStrOptStr group,
     "Announcement: " ++ pyStrOptStr announcement]

/-- `INDENTSTR * indent`. -/
def indentString (n : Nat) : String := String.join (List.replicate n ">  ")

/-- `ModuleItem.__str__`: the lines, each indented, joined by newlines. -/
def itemStr (it : ModuleItem) : String :=
  String.intercalate "\n" (it.lines.map (fun line => indentString it.indentOf ++ line))

/-- Group selection of `ItemWebworkSet.create` (and
`ItemAssignmentCreate.create`): the first group is the default and a named
group is looked up by name, first match wins.  (Python raises IndexError
when there are no groups at all; that case is modelled as id 0.) -/
def selectGroupId (groups : List AssignmentGroup) (group : Option String) : Nat :=
  match groups with
  | [] => 0
  | g0 :: _ =>
    match group with
    | none => g0.id
    | some gname =>
      match groups.find? (fun g => g.name = gname) with
      | some g => g.id
      | none => g0.id

/-- The `strftime("\n\n__Due %m/%d/%y at %H:%M__")` suffix of the posted
announcement, for a deadline in `%Y-%m-%dT%H:%M:%S` format (assumed
well-formed, as `strptime` would otherwise raise). -/
def dueAnnouncementSuffix (deadline : String) : String :=
  let cs := deadline.data
  let piece : Nat → Nat → String := fun a b => ⟨(cs.drop a).take b⟩
  "\n\n__Due " ++ piece 5 2 ++ "/" ++ piece 8 2 ++ "/" ++ piece 2 2 ++ " at " ++
    piece 11 2 ++ ":" ++ piece 14 2 ++ "__"

/-- The WeBWorK URL template `WWURL.format(wwclass, wwset)`. -/
def wwUrl (wwclass wwset : String) : String :=
  "https://webwork.svsu.edu/webwork2/" ++ wwclass ++ "/" ++ wwset

/-- The `create` method of each item class, as the list of effects it
performs, with remote responses supplied by the oracle `r`. -/
def ModuleItem.create (r : Remote) (course : Nat) (moduleid : Option Nat) :
    ModuleItem → List Effect
  | .header title indent =>
    [Effect.createModuleItem course moduleid title none "SubHeader" indent none]
  | .file title fname indent =>
    Effect.listFiles course fname ::
      (match r.list_files course fname with
       | [] => [Effect.printMsg "Creating file item: file ain\x27t there!"]
       | f :: _ =>
         [Effect.createModuleItem course moduleid title none "File" indent (some f.id)])
  | .localFile title local_file remote_path remote_name indent =>
    [Effect.uploadFileToCourse course local_file remote_path remote_name,
     Effect.createModuleItem course moduleid title none "File" indent
       (some (r.upload_id course local_file))]
  | .assignment title name indent =>
    Effect.getAssignments course name ::
      (match r.get_assignments course name with
       | [] => [Effect.printMsg "Creating assignment item: assignment ain\x27t there!"]
       | a :: _ =>
         [Effect.createModuleItem course moduleid title none "Assignment" indent (some a)])
  | .url title u indent new_tab =>
    [Effect.createUrlItem course moduleid title none "ExternalUrl" indent u new_tab]
  | .webworkSet title wwclass wwset points deadline group name announcement indent =>
    let groups := r.assignment_groups course
    let groupid := selectGroupId groups group
    let assid := r.create_assignment_id course name
    [Effect.getAssignmentGroups course,
     Effect.createAssignment course name "WeBWorK" points deadline groupid
       (some (wwUrl wwclass wwset)),
     Effect.createModuleItem course moduleid title none "Assignment" indent (some assid)] ++
      (match announcement with
       | none => []
       | some a =>
         [Effect.postAnnouncement course ("Assignment " ++ name ++ " posted")
            (a ++ dueAnnouncementSuffix deadline)])

/-- The `for item in mod["items"]: item.create(cls, modid)` loop of
`post_module` (non-print branch): each item is processed in turn,
whatever happened to the items before it. -/
def post_items (r : Remote) (course : Nat) (moduleid : Option Nat) :
    List ModuleItem → List Effect
  | [] => []
  | it :: rest => ModuleItem.create r course moduleid it ++ post_items r course moduleid rest

/-- `list.index` (first index of the element; Python raises ValueError when
absent, modelled as the length). -/
def listIndex : List String → String → Nat
  | [], _ => 0
  | y :: ys, x => if y = x then 0 else listIndex ys x + 1

/-- `create_weekly_module` from modules.py, for a month given by name (as
`post_module` passes it): asserts the date is a Monday, creates the module
remotely and returns its id when the response has an "id" key.  The outer
`Option` is `none` when the assertion fails (AssertionError raised before
any remote call). -/
def create_weekly_module (r : Remote) (classid year : Nat) (month : String)
    (day : Nat) : List Effect × Option (Option Nat) :=
  let mnum := listIndex monthNames month
  let date := toordinal year mnum day
  if pyWeekdayNat date ≠ 0 then ([], none)
  else
    let mname := monthName mnum
    let modname := "Week of " ++ mname ++ " " ++ toString day
    ([Effect.createModule classid modname none], some (r.create_module_resp classid modname))

/-- A week block of the course configuration: `mod["week"]` and
`mod["items"]`. -/
structure WeekBlock where
  week : Int
  items : List ModuleItem
deriving DecidableEq

/-- `post_module` from modules.py: computes the week start from the
semester dates; in print-only mode prints a header line and then each item,
in order, with no remote call; otherwise creates the weekly module and runs
each item's `create`. -/
def post_module (r : Remote) (cls : Nat) (mod : WeekBlock) (sd : SemesterDates)
    (print_only : Bool) : List Effect :=
  let start := sd.week_start mod.week
  let ymd := fromordinal start.toNat
  let year := ymd.1
  let month := monthName ymd.2.1
  let day := ymd.2.2
  if print_only then
    Effect.printMsg ("==================== Module for " ++ month ++ "/" ++ toString day ++
        "/" ++ toString year ++ " ====================") ::
      mod.items.map (fun it => Effect.printMsg (itemStr it))
  else
    match create_weekly_module r cls year month day with
    | (effs, none) =>
      effs ++ [Effect.raiseError "AssertionError: create_weekly_module: date is not a Monday."]
    | (effs, some modid) => effs ++ post_items r cls modid mod.items

/-! #### files.py: uploads from a dict -/

/-- `upload_file` from files.py: uploads the file, then links it as a
module item at the given position; returns the created item (modelled by
its id from the oracle). -/
def upload_file (r : Remote) (classid moduleId : Nat) (fname directory title : String)
    (position : Option Nat) (indent : Nat) : List Effect × Nat :=
  ([Effect.uploadFileToCourse classid fname directory none,
    Effect.createModuleItem classid (some moduleId) title position "File" indent
      (some (r.upload_id classid fname))],
   r.created_item_id classid title)

/-- `upload_files_from_dict` from files.py, the dict in iteration order as
an association list `(filename, directory, title)`: uploads each existing
local file (advancing the position when it is not `None`), reports each
missing one with "<fname> not found" and continues; returns the created
items by filename, with the effect trace. -/
def upload_files_from_dict (r : Remote) (classid moduleId : Nat) (pos : Option Nat)
    (isfile : String → Bool) :
    List (String × String × String) → List (String × Nat) × List Effect
  | [] => ([], [])
  | (fname, directory, title) :: rest =>
    if isfile fname then
      let up := upload_file r classid moduleId fname directory title pos 1
      let newpos := pos.map (fun p => p + 1)
      let restResult := upload_files_from_dict r classid moduleId newpos isfile rest
      ((fname, up.2) :: restResult.1, up.1 ++ restResult.2)
    else
      let restResult := upload_files_from_dict r classid moduleId pos isfile rest
      (restResult.1, Effect.printMsg (fname ++ " not found") :: restResult.2)

/-! ### Claim theorems C8 - C9 -/

/-- A remote on which every lookup comes back empty. -/
def emptyRemote : Remote :=
  ⟨fun _ _ => [], fun _ _ => 0, fun _ _ => [], fun _ => [], fun _ _ => 0,
   fun _ _ => none, fun _ _ => 0⟩

theorem all_printMsg_of_map (l : List ModuleItem) :
    (l.map (fun it => Effect.printMsg (itemStr it))).all Effect.isPrintMsg = true := by
  induction l with
  | nil => rfl
  | cons it rest ih => simp [Effect.isPrintMsg, ih]

/-- C8: a missing referenced resource is a per-item degraded failure: a
File item whose remote file is not found only reports the failure and
creates no module item; the item loop always goes on to process the
remaining items; and a missing local file in `upload_files_from_dict` is
reported, skipped (no upload, no position bump) and the remaining files are
still processed. -/
theorem missing_resource_is_per_item_failure :
    (∀ (r : Remote) (course : Nat) (moduleid : Option Nat) (title fname : String)
       (indent : Nat),
       r.list_files course fname = [] →
       ModuleItem.create r course moduleid (ModuleItem.file title fname indent) =
         [Effect.listFiles course fname,
          Effect.printMsg "Creating file item: file ain\x27t there!"]) ∧
    (∀ (r : Remote) (course : Nat) (moduleid : Option Nat) (it : ModuleItem)
       (rest : List ModuleItem),
       post_items r course moduleid (it :: rest) =
         ModuleItem.create r course moduleid it ++ post_items r course moduleid rest) ∧
    (∀ (r : Remote) (classid moduleId : Nat) (pos : Option Nat) (isfile : String → Bool)
       (fname directory title : String) (rest : List (String × String × String)),
       isfile fname = false →
       upload_files_from_dict r classid moduleId pos isfile ((fname, directory, title) :: rest) =
         ((upload_files_from_dict r classid moduleId pos isfile rest).1,
          Effect.printMsg (fname ++ " not found") ::
            (upload_files_from_dict r classid moduleId pos isfile rest).2)) := by
  refine ⟨?_, fun r course moduleid it rest => rfl, ?_⟩
  · intro r course moduleid title fname indent hresp
    simp only [ModuleItem.create, hresp]
  · intro r classid moduleId pos isfile fname directory title rest hmissing
    simp only [upload_files_from_dict, hmissing]
    simp

/-- Witness for C8: with an empty remote, a File item for "notes.pdf" only
lists and reports; and with no local files present, both entries of a
two-file dict are reported in order, nothing is uploaded, and no item is
created. -/
theorem missing_resource_is_per_item_failure_witness :
    ModuleItem.create emptyRemote 1 (some 2) (ModuleItem.file "Notes" "notes.pdf" 0) =
      [Effect.listFiles 1 "notes.pdf",
       Effect.printMsg "Creating file item: file ain\x27t there!"] ∧
    upload_files_from_dict emptyRemote 1 2 (some 1) (fun _ => false)
        [("a.pdf", "docs", "A"), ("b.pdf", "docs", "B")] =
      ([], [Effect.printMsg "a.pdf not found", Effect.printMsg "b.pdf not found"]) := by
  constructor
  · exact missing_resource_is_per_item_failure.1 emptyRemote 1 (some 2) "Notes" "notes.pdf" 0 rfl
  · rw [missing_resource_is_per_item_failure.2.2 emptyRemote 1 2 (some 1) (fun _ => false)
      "a.pdf" "docs" "A" [("b.pdf", "docs", "B")] rfl]
    rw [missing_resource_is_per_item_failure.2.2 emptyRemote 1 2 (some 1) (fun _ => false)
      "b.pdf" "docs" "B" [] rfl]
    rfl

/-- The semester dates of the dry-run scenario: the semester starts on
Monday 2019-01-07. -/
def demoSd : SemesterDates := SemesterDates.init ((toordinal 2019 1 7 : Nat) : Int) none

/-- The week block of the dry-run scenario: week 1 with a Header, a URL and
a WebworkSet item. -/
def demoWeek : WeekBlock :=
  ⟨1, [ModuleItem.header "Overview" 0,
       ModuleItem.url "Lecture video" "https://example.edu/v1" 1 true,
       mkItemWebworkSet "Homework 1" "math101" "set_one" 10 "2019-02-04T23:59:00"
         none none none 0]⟩

/-- C9: in print-only mode `post_module` performs no remote call at all and
prints a header followed by the description of each item in exactly the
listed order; in particular the 3-item week block (Header, URL, WebworkSet)
produces exactly its four print lines in order, for every remote oracle. -/
theorem post_module_print_only :
    (∀ (r : Remote) (cls : Nat) (mod : WeekBlock) (sd : SemesterDates),
       post_module r cls mod sd true =
         Effect.printMsg ("==================== Module for " ++
             monthName (fromordinal (sd.week_start mod.week).toNat).2.1 ++ "/" ++
             toString (fromordinal (sd.week_start mod.week).toNat).2.2 ++ "/" ++
             toString (fromordinal (sd.week_start mod.week).toNat).1 ++
             " ====================") ::
           mod.items.map (fun it => Effect.printMsg (itemStr it)) ∧
       (post_module r cls mod sd true).all Effect.isPrintMsg = true) ∧
    (∀ r : Remote,
       post_module r 42 demoWeek demoSd true =
         [Effect.printMsg "==================== Module for January/7/2019 ====================",
          Effect.printMsg "Overview",
          Effect.printMsg
            ">  URL:\n>  Lecture video\n>  URL: https://example.edu/v1\n>  New tab: True",
          Effect.printMsg
            "WeBWorK assignment:\nHomework 1\nset one\nPoints: 10\nDue: 2019-02-04T23:59:00\nGroup: None\nAnnouncement: None"]) := by
  have hshape : ∀ (r : Remote) (cls : Nat) (mod : WeekBlock) (sd : SemesterDates),
      post_module r cls mod sd true =
        Effect.printMsg ("==================== Module for " ++
            monthName (fromordinal (sd.week_start mod.week).toNat).2.1 ++ "/" ++
            toString (fromordinal (sd.week_start mod.week).toNat).2.2 ++ "/" ++
            toString (fromordinal (sd.week_start mod.week).toNat).1 ++
            " ====================") ::
          mod.items.map (fun it => Effect.printMsg (itemStr it)) :=
    fun r cls mod sd => rfl
  refine ⟨fun r cls mod sd => ⟨hshape r cls mod sd, ?_⟩, fun r => ?_⟩
  · rw [hshape r cls mod sd]
    simp [Effect.isPrintMsg, all_printMsg_of_map]
  · rw [hshape r 42 demoWeek demoSd]
    decide

end CanvasUtils
